import Mathlib

/-!
Shallow embedding of the eco3 repository: the client global store
(frontend state container) and the Express/PostgreSQL API server
handlers, together with proofs about the specified behaviour.

Frontend definitions are translated from the store source
(`addNotification`, `markNotificationRead`, `checkAuth`, ...); backend
definitions are translated from the server source (route handlers,
`authenticateToken`, the zod input schemas, and the SQL statements each
handler issues, modelled as list operations over an explicit database
state).
-/

namespace Eco3

/-! ## Client store: notification list -/

/-- A client-side notification, as in the frontend store. -/
structure Notification where
  id : String
  message : String
  read : Bool
  createdAt : String
deriving Repr, DecidableEq

/-- The notifications slice of the store: the list plus the separately
stored `unreadCount` field. -/
structure NotificationsState where
  notifications : List Notification
  unreadCount : Nat
deriving Repr, DecidableEq

/-- Store action `addNotification(notification)`: appends the
notification and increments `unreadCount` by one, unconditionally. -/
def addNotification (n : Notification) (s : NotificationsState) : NotificationsState :=
  { notifications := s.notifications ++ [n]
    unreadCount := s.unreadCount + 1 }

/-- Store action `markNotificationRead(id)`: maps over the list setting
`read := true` on matching entries, and sets `unreadCount` to the
unread count of the PREVIOUS list (the source filters
`state.notifications.notifications`, i.e. the list before the map). -/
def markNotificationRead (id : String) (s : NotificationsState) : NotificationsState :=
  { notifications :=
      s.notifications.map fun n => if n.id = id then { n with read := true } else n
    unreadCount := (s.notifications.filter fun n => !n.read).length }

/-- Number of unread notifications in a list. -/
def unreadLen (l : List Notification) : Nat :=
  (l.filter fun n => !n.read).length

/-- The spec invariant: `unreadCount` equals the count of entries whose
`read` flag is false. -/
def unreadInvariant (s : NotificationsState) : Prop :=
  s.unreadCount = unreadLen s.notifications

instance (s : NotificationsState) : Decidable (unreadInvariant s) := by
  unfold unreadInvariant; infer_instance

theorem unreadLen_nil : unreadLen [] = 0 := rfl

theorem unreadLen_cons (n : Notification) (l : List Notification) :
    unreadLen (n :: l) = (if n.read then 0 else 1) + unreadLen l := by
  cases hr : n.read <;> simp [unreadLen, List.filter_cons, hr, Nat.add_comm]

theorem unreadLen_append_single (l : List Notification) (n : Notification) :
    unreadLen (l ++ [n]) = unreadLen l + (if n.read then 0 else 1) := by
  cases hr : n.read <;> simp [unreadLen, List.filter_append, List.filter_cons, hr]

/-- Marking entries read removes exactly the currently-unread entries
with the given id from the unread count. -/
theorem unreadLen_mark (id : String) (l : List Notification) :
    unreadLen (l.map fun n => if n.id = id then { n with read := true } else n)
      + (l.countP fun n => n.id == id && !n.read) = unreadLen l := by
  induction l with
  | nil => rfl
  | cons n t ih =>
    by_cases hid : n.id = id
    · cases hr : n.read <;>
        simp [List.countP_cons, hid, hr, unreadLen_cons] <;> omega
    · cases hr : n.read <;>
        simp [List.countP_cons, hid, hr, unreadLen_cons] <;> omega

def sampleReadNotif : Notification :=
  { id := "n1", message := "done", read := true, createdAt := "t0" }

def sampleUnreadNotif : Notification :=
  { id := "n2", message := "new", read := false, createdAt := "t1" }

def emptyNotifState : NotificationsState :=
  { notifications := [], unreadCount := 0 }

/-- C1: the claimed invariant fails on the code in exactly the case the
claim highlights: starting from the empty state (which satisfies the
invariant), `addNotification` of an already-read notification yields
`unreadCount = 1` while the list has zero unread entries. -/
theorem addNotification_breaks_unread_invariant :
    ¬ unreadInvariant (addNotification sampleReadNotif emptyNotifState) := by
  decide

/-- C1 (amended): starting from any state satisfying the invariant,
`addNotification n` preserves it exactly when the added notification is
unread (`n.read = false`), and `markNotificationRead id` preserves it
exactly when `id` does not name any currently-unread notification.  In
particular the invariant is broken when the added notification already
has `read = true`, and when the id names a currently-unread entry. -/
theorem unread_invariant_mutation_iff (s : NotificationsState) (n : Notification)
    (id : String) (h : unreadInvariant s) :
    (unreadInvariant (addNotification n s) ↔ n.read = false) ∧
    (unreadInvariant (markNotificationRead id s) ↔
      ∀ m ∈ s.notifications, m.id = id → m.read = true) := by
  unfold unreadInvariant at h
  constructor
  · unfold unreadInvariant addNotification
    simp only [unreadLen_append_single]
    cases hr : n.read <;> simp [hr] <;> omega
  · have hm := unreadLen_mark id s.notifications
    have hz : unreadInvariant (markNotificationRead id s) ↔
        (s.notifications.countP fun m => m.id == id && !m.read) = 0 := by
      unfold unreadInvariant markNotificationRead unreadLen
      simp only []
      unfold unreadLen at hm h
      omega
    rw [hz, List.countP_eq_zero]
    constructor
    · intro hall m hmem hid
      have := hall m hmem
      simp [hid] at this
      exact this
    · intro hall m hmem
      by_cases hid : m.id = id
      · simp [hid, hall m hmem hid]
      · simp [hid]

/-- Witness for the amended C1 theorem at a concrete state. -/
theorem unread_invariant_mutation_iff_witness :
    unreadInvariant (addNotification sampleUnreadNotif emptyNotifState) :=
  ((unread_invariant_mutation_iff emptyNotifState sampleUnreadNotif "n1"
      (by decide)).1).mpr rfl

/-! ## Client store: auth slice and `checkAuth` -/

/-- The frontend user snapshot. -/
structure ClientUser where
  id : String
  username : String
  email : String
  full_name : Option String
  profile_image_url : Option String
  created_at : String
deriving Repr, DecidableEq

/-- The auth slice of the store. -/
structure AuthState where
  currentUser : Option ClientUser
  authToken : Option String
  isAuthenticated : Bool
  isLoading : Bool
  errorMessage : Option String
deriving Repr, DecidableEq

/-- Outcome of the token-verification network request made by
`checkAuth` (the axios GET resolves with a user, or rejects). -/
inductive VerifyOutcome where
  | success (user : ClientUser)
  | rejected
deriving Repr, DecidableEq

/-- Result of running `checkAuth`: the committed auth state, plus
whether the network request was issued at all. -/
structure CheckAuthResult where
  state : AuthState
  networkCalled : Bool
deriving Repr, DecidableEq

/-- JavaScript truthiness test used by `if (!authToken)`: `null` and
the empty string are falsy. -/
def jsTokenFalsy : Option String → Bool
  | none => true
  | some t => t.isEmpty

/-- Store action `checkAuth()`: if the stored token is falsy, only
`isLoading` is set to false and no request is made; otherwise the
verification endpoint is called and the response (`outcome`) either
commits the user and authentication, or clears all auth state. -/
def checkAuth (s : AuthState) (outcome : VerifyOutcome) : CheckAuthResult :=
  if jsTokenFalsy s.authToken then
    { state := { s with isLoading := false }, networkCalled := false }
  else
    match outcome with
    | .success user =>
        { state := { s with
            currentUser := some user
            isAuthenticated := true
            isLoading := false
            errorMessage := none }
          networkCalled := true }
    | .rejected =>
        { state := { s with
            currentUser := none
            authToken := none
            isAuthenticated := false
            isLoading := false
            errorMessage := some "Token invalid" }
          networkCalled := true }

/-- A store state with no token but `isAuthenticated = true`. -/
def staleAuthState : AuthState :=
  { currentUser := none
    authToken := none
    isAuthenticated := true
    isLoading := true
    errorMessage := none }

/-- C8: the claim fails on the code: in the no-token branch `checkAuth`
only sets `isLoading := false` and leaves `isAuthenticated` untouched,
so a state with no token and `isAuthenticated = true` does not end
unauthenticated. -/
theorem checkAuth_no_token_counterexample :
    ¬ ((checkAuth staleAuthState .rejected).state.isLoading = false ∧
       (checkAuth staleAuthState .rejected).state.isAuthenticated = false) := by
  decide

/-- C8 (amended): when the stored token is absent, `checkAuth` makes no
network call, sets `isLoading := false` and leaves every other auth
field unchanged (so the state ends unauthenticated exactly when it
already was); and for every state holding a token, a rejected
verification clears `currentUser`, `authToken` and `isAuthenticated`
and finishes loading. -/
theorem checkAuth_branches (s : AuthState) (o : VerifyOutcome) :
    (s.authToken = none →
      (checkAuth s o).networkCalled = false ∧
      (checkAuth s o).state.isLoading = false ∧
      (checkAuth s o).state.isAuthenticated = s.isAuthenticated ∧
      (checkAuth s o).state.currentUser = s.currentUser ∧
      (checkAuth s o).state.authToken = none ∧
      (checkAuth s o).state.errorMessage = s.errorMessage) ∧
    (∀ t : String, s.authToken = some t → ¬ t.isEmpty →
      (checkAuth s .rejected).networkCalled = true ∧
      (checkAuth s .rejected).state.currentUser = none ∧
      (checkAuth s .rejected).state.authToken = none ∧
      (checkAuth s .rejected).state.isAuthenticated = false ∧
      (checkAuth s .rejected).state.isLoading = false) := by
  constructor
  · intro hnone
    simp [checkAuth, jsTokenFalsy, hnone]
  · intro t ht hne
    simp [checkAuth, jsTokenFalsy, ht, hne]

/-- Witness for the amended C8 theorem at concrete states. -/
theorem checkAuth_branches_witness :
    ((checkAuth staleAuthState .rejected).networkCalled = false ∧
      (checkAuth staleAuthState .rejected).state.isLoading = false ∧
      (checkAuth staleAuthState .rejected).state.isAuthenticated =
        staleAuthState.isAuthenticated ∧
      (checkAuth staleAuthState .rejected).state.currentUser =
        staleAuthState.currentUser ∧
      (checkAuth staleAuthState .rejected).state.authToken = none ∧
      (checkAuth staleAuthState .rejected).state.errorMessage =
        staleAuthState.errorMessage) ∧
    ((checkAuth { staleAuthState with authToken := some "tok" } .rejected).networkCalled
        = true ∧
      (checkAuth { staleAuthState with authToken := some "tok" } .rejected).state.currentUser
        = none ∧
      (checkAuth { staleAuthState with authToken := some "tok" } .rejected).state.authToken
        = none ∧
      (checkAuth { staleAuthState with authToken := some "tok" } .rejected).state.isAuthenticated
        = false ∧
      (checkAuth { staleAuthState with authToken := some "tok" } .rejected).state.isLoading
        = false) :=
  ⟨(checkAuth_branches staleAuthState .rejected).1 rfl,
   (checkAuth_branches { staleAuthState with authToken := some "tok" } .rejected).2
     "tok" rfl (by decide)⟩

/-! ## Server: database state

Rows of the three tables the verified handlers touch (`users`, `posts`,
`likes`; SERIAL ids are naturals, timestamps are opaque strings).  The
`comments` table is not needed by any claim.  String ids arriving in
request bodies are modelled after the cast Postgres applies when they
are compared with or inserted into INTEGER columns. -/

structure UserRow where
  id : Nat
  username : String
  email : String
  password_hash : String
  full_name : Option String
  profile_image_url : String
  created_at : String
deriving Repr, DecidableEq

structure PostRow where
  id : Nat
  user_id : Nat
  title : String
  content : Option String
  image_url : String
  created_at : String
deriving Repr, DecidableEq

structure LikeRow where
  user_id : Nat
  post_id : Nat
  created_at : String
deriving Repr, DecidableEq

structure CommentRow where
  id : Nat
  user_id : Nat
  post_id : Nat
  content : String
  created_at : String
deriving Repr, DecidableEq

/-- The mutable database state, plus the serial counter for `users.id`. -/
structure Db where
  users : List UserRow
  posts : List PostRow
  likes : List LikeRow
  comments : List CommentRow
  nextUserId : Nat
deriving Repr, DecidableEq

/-- `s.toLowerCase()` (character-wise lower-casing). -/
def jsToLower (s : String) : String := ⟨s.data.map Char.toLower⟩

/-- `s.trim()`: strip leading and trailing whitespace. -/
def jsTrim (s : String) : String :=
  ⟨((s.data.dropWhile Char.isWhitespace).reverse.dropWhile Char.isWhitespace).reverse⟩

/-- `email.toLowerCase().trim()`, as applied by the register, create,
update and login handlers. -/
def normEmail (s : String) : String := jsTrim (jsToLower s)

/-- `v?.trim() || null` on an optional-nullable string: absent and
`null` give `null`; a string trimming to the empty string is falsy and
gives `null`; otherwise the trimmed string. -/
def jsTrimOrNull : Option String → Option String
  | none => none
  | some s => if jsTrim s = "" then none else some (jsTrim s)

/-- `v || dflt` on an optional string: absent or empty gives the
default. -/
def jsStrOrDefault (v : Option String) (dflt : String) : String :=
  match v with
  | none => dflt
  | some s => if s = "" then dflt else s

/-! ## Server: JWT tokens and the authentication middleware -/

/-- The payload `jwt.sign` embeds: `user_id` and `email`. -/
structure JwtPayload where
  user_id : Nat
  email : String
deriving Repr, DecidableEq

/-- A signed token: the payload bound to the signing secret.
`jwt.verify` recovers the payload exactly when the secrets match. -/
structure JwtToken where
  payload : JwtPayload
  secret : String
deriving Repr, DecidableEq

def jwtSign (p : JwtPayload) (secret : String) : JwtToken :=
  { payload := p, secret := secret }

def jwtVerify (t : JwtToken) (secret : String) : Option JwtPayload :=
  if t.secret = secret then some t.payload else none

/-- Outcome of the `authenticateToken` middleware. -/
inductive AuthCheck where
  | tokenMissing
  | tokenInvalid
  | userNotFound
  | ok (user : UserRow)
deriving Repr, DecidableEq

/-- `authenticateToken`: reject a missing token with 401
`AUTH_TOKEN_MISSING`; verify the signature (403 `AUTH_TOKEN_INVALID` on
failure); look the decoded `user_id` up in `users` (401
`AUTH_USER_NOT_FOUND` if absent); otherwise attach the row as
`req.user`. -/
def authenticateToken (db : Db) (secret : String) (tok : Option JwtToken) : AuthCheck :=
  match tok with
  | none => .tokenMissing
  | some t =>
    match jwtVerify t secret with
    | none => .tokenInvalid
    | some p =>
      match db.users.find? (fun u => u.id == p.user_id) with
      | none => .userNotFound
      | some u => .ok u

/-! ## Server: POST /api/auth/register -/

/-- The registration body after `createUserInputSchema.parse`:
`full_name` is optional and nullable (outer `none` = absent, inner
`none` = explicit null), `profile_image_url` optional. -/
structure CreateUserInput where
  username : String
  email : String
  password_hash : String
  full_name : Option (Option String)
  profile_image_url : Option String
deriving Repr, DecidableEq

/-- Outcome of the registration handler. -/
inductive RegisterResult where
  | created (user : UserRow) (token : JwtToken)
  | alreadyExists
deriving Repr, DecidableEq

def RegisterResult.status : RegisterResult → Nat
  | .created _ _ => 201
  | .alreadyExists => 400

def RegisterResult.errorCode : RegisterResult → Option String
  | .created _ _ => none
  | .alreadyExists => some "USER_ALREADY_EXISTS"

/-- `POST /api/auth/register` on a validated body: the duplicate check
runs `SELECT id FROM users WHERE email = $1 OR username = $2` with the
lower-cased trimmed email and the trimmed username, rejecting with 400
`USER_ALREADY_EXISTS` before any insert; otherwise the row is inserted
(normalised fields, fallback image) and a token is signed over the new
id and stored email.  `now` is the row timestamp and `img` the random
fallback image URL. -/
def register (db : Db) (secret now img : String) (i : CreateUserInput) :
    RegisterResult × Db :=
  let dup := db.users.filter fun u =>
    u.email == normEmail i.email || u.username == jsTrim i.username
  if 0 < dup.length then
    (.alreadyExists, db)
  else
    let row : UserRow :=
      { id := db.nextUserId
        username := jsTrim i.username
        email := normEmail i.email
        password_hash := i.password_hash
        full_name := jsTrimOrNull i.full_name.join
        profile_image_url := jsStrOrDefault i.profile_image_url img
        created_at := now }
    let token := jwtSign { user_id := row.id, email := row.email } secret
    (.created row token,
     { db with users := db.users ++ [row], nextUserId := db.nextUserId + 1 })

/-- The normal form every write path leaves stored rows in: emails are
lower-cased and trimmed, usernames trimmed (true of the seed data and
of every insert/update the handlers perform). -/
def DbNormalized (db : Db) : Prop :=
  ∀ u ∈ db.users, normEmail u.email = u.email ∧ jsTrim u.username = u.username

instance (db : Db) : Decidable (DbNormalized db) := by
  unfold DbNormalized; infer_instance

/-- C4: a registration whose email or username equals that of an
existing user returns 400 with error code `USER_ALREADY_EXISTS` and
leaves the database — in particular the users table — unchanged. -/
theorem register_duplicate_rejected (db : Db) (secret now img : String)
    (i : CreateUserInput) (hnorm : DbNormalized db)
    (hdup : ∃ u ∈ db.users, u.email = i.email ∨ u.username = i.username) :
    (register db secret now img i).1.status = 400 ∧
    (register db secret now img i).1.errorCode = some "USER_ALREADY_EXISTS" ∧
    (register db secret now img i).2 = db := by
  obtain ⟨u, hu, hcase⟩ := hdup
  have hpred : (u.email == normEmail i.email || u.username == jsTrim i.username) = true := by
    obtain ⟨hne, hnu⟩ := hnorm u hu
    rcases hcase with he | hn
    · simp [← he, hne]
    · simp [← hn, hnu]
  have hmem : u ∈ db.users.filter fun v =>
      v.email == normEmail i.email || v.username == jsTrim i.username :=
    List.mem_filter.mpr ⟨hu, hpred⟩
  have hlen : 0 < (db.users.filter fun v =>
      v.email == normEmail i.email || v.username == jsTrim i.username).length :=
    List.length_pos_of_mem hmem
  simp [register, hlen, RegisterResult.status, RegisterResult.errorCode]

/-- Witness database: three normalised users, a post by john, a like
and a comment by jane; tech_guy has no dependent rows. -/
def johnRow : UserRow :=
  { id := 1, username := "john_doe", email := "john@example.com"
    password_hash := "password123", full_name := some "John Doe"
    profile_image_url := "https://picsum.photos/200/300?random=42"
    created_at := "2024-01-01T00:00:00.000Z" }

def janeRow : UserRow :=
  { id := 2, username := "jane_smith", email := "jane@example.com"
    password_hash := "admin123", full_name := some "Jane Smith"
    profile_image_url := "https://picsum.photos/200/300?random=17"
    created_at := "2024-01-02T00:00:00.000Z" }

def firstPost : PostRow :=
  { id := 1, user_id := 1, title := "First Post"
    content := some "This is my first post about PostgreSQL!"
    image_url := "https://picsum.photos/800/600?random=10"
    created_at := "2024-01-03T00:00:00.000Z" }

def techRow : UserRow :=
  { id := 3, username := "tech_guy", email := "tech@example.com"
    password_hash := "user123", full_name := some "Tech Enthusiast"
    profile_image_url := "https://picsum.photos/200/300?random=88"
    created_at := "2024-01-03T00:00:00.000Z" }

def likeRow21 : LikeRow :=
  { user_id := 2, post_id := 1, created_at := "2024-01-04T00:00:00.000Z" }

def firstComment : CommentRow :=
  { id := 1, user_id := 2, post_id := 1, content := "Great first post!"
    created_at := "2024-01-05T00:00:00.000Z" }

def seedDb : Db :=
  { users := [johnRow, janeRow, techRow], posts := [firstPost]
    likes := [likeRow21], comments := [firstComment]
    nextUserId := 4 }

/-- Witness for the duplicate-registration theorem on the seed state. -/
theorem register_duplicate_rejected_witness :
    (register seedDb "secret" "t" "img"
        { username := "somebody", email := "john@example.com"
          password_hash := "longpass1", full_name := none
          profile_image_url := none }).1.status = 400 ∧
    (register seedDb "secret" "t" "img"
        { username := "somebody", email := "john@example.com"
          password_hash := "longpass1", full_name := none
          profile_image_url := none }).1.errorCode = some "USER_ALREADY_EXISTS" ∧
    (register seedDb "secret" "t" "img"
        { username := "somebody", email := "john@example.com"
          password_hash := "longpass1", full_name := none
          profile_image_url := none }).2 = seedDb :=
  register_duplicate_rejected seedDb "secret" "t" "img" _
    (by decide) ⟨johnRow, by decide, Or.inl (by decide)⟩

/-! ## Server: POST /api/auth/login -/

inductive LoginResult where
  | missingFields
  | invalidCredentials
  | success (user : UserRow) (token : JwtToken)
deriving Repr, DecidableEq

/-- JavaScript falsiness of an optional request-body string
(`!email || !password_hash`): absent and empty strings are falsy. -/
def jsBodyFalsy : Option String → Bool
  | none => true
  | some s => s.isEmpty

/-- `POST /api/auth/login`: missing or empty fields give 400
`MISSING_REQUIRED_FIELDS`; the account is looked up by the lower-cased
trimmed email (`SELECT * FROM users WHERE email = $1`, first row); no
row or a password mismatch gives 401 `INVALID_CREDENTIALS`; otherwise a
token is signed over the row id and email. -/
def login (db : Db) (secret : String) (email password_hash : Option String) :
    LoginResult :=
  if jsBodyFalsy email || jsBodyFalsy password_hash then .missingFields
  else
    match db.users.find? (fun u => u.email == normEmail (email.getD "")) with
    | none => .invalidCredentials
    | some u =>
      if password_hash.getD "" ≠ u.password_hash then .invalidCredentials
      else .success u (jwtSign { user_id := u.id, email := u.email } secret)

theorem find?_append_left_none {α : Type} (l1 l2 : List α) (p : α → Bool)
    (h : ∀ x ∈ l1, p x = false) : (l1 ++ l2).find? p = l2.find? p := by
  induction l1 with
  | nil => simp
  | cons a t ih =>
    have ha := h a (by simp)
    simp only [List.cons_append, List.find?_cons, ha]
    exact ih fun x hx => h x (by simp [hx])

/-- C10: email handling is case- and whitespace-insensitive across the
auth operations: registration stores the lower-cased trimmed email, the
duplicate check compares against the lower-cased trimmed email, and
login looks the account up by the lower-cased trimmed email; hence
after registering with email `e`, logging in with any `e2` of the same
normal form and the correct password succeeds with the registered user,
and registering again with any email of the same normal form is
rejected as a duplicate. -/
theorem register_login_email_normalised (db : Db) (secret now img : String)
    (i : CreateUserInput)
    (hfresh : ∀ u ∈ db.users,
      u.email ≠ normEmail i.email ∧ u.username ≠ jsTrim i.username)
    (hemail : normEmail i.email ≠ "")
    (hpw : 8 ≤ i.password_hash.length) :
    ∃ u tok, (register db secret now img i).1 = .created u tok ∧
      u.email = normEmail i.email ∧
      (∀ e2, normEmail e2 = normEmail i.email →
        login (register db secret now img i).2 secret (some e2)
            (some i.password_hash)
          = .success u (jwtSign { user_id := u.id, email := u.email } secret)) ∧
      (∀ j : CreateUserInput, normEmail j.email = normEmail i.email →
        (register (register db secret now img i).2 secret now img j).1
          = .alreadyExists) := by
  have hnodup : ∀ u ∈ db.users,
      (u.email == normEmail i.email || u.username == jsTrim i.username) = false := by
    intro u hu
    obtain ⟨h1, h2⟩ := hfresh u hu
    simp [h1, h2]
  have hfil : (db.users.filter fun u =>
      u.email == normEmail i.email || u.username == jsTrim i.username) = [] := by
    rw [List.filter_eq_nil_iff]
    intro u hu
    simp [hnodup u hu]
  set row : UserRow :=
    { id := db.nextUserId
      username := jsTrim i.username
      email := normEmail i.email
      password_hash := i.password_hash
      full_name := jsTrimOrNull i.full_name.join
      profile_image_url := jsStrOrDefault i.profile_image_url img
      created_at := now } with hrow
  have hreg : register db secret now img i =
      (.created row (jwtSign { user_id := db.nextUserId, email := normEmail i.email } secret),
       { db with users := db.users ++ [row], nextUserId := db.nextUserId + 1 }) := by
    simp [register, hfil, jwtSign, hrow]
  refine ⟨row, _, by rw [hreg], rfl, ?_, ?_⟩
  · intro e2 he2
    rw [hreg]
    have he2ne : ¬ e2.isEmpty := by
      intro habs
      rw [String.isEmpty_iff] at habs
      rw [habs] at he2
      exact hemail (he2.symm.trans (show normEmail "" = "" from rfl))
    have hpwne : ¬ i.password_hash.isEmpty := by
      intro habs
      rw [String.isEmpty_iff] at habs
      rw [habs] at hpw
      simp at hpw
    have hfind : ((db.users ++ [row]).find? fun u => u.email == normEmail e2)
        = some row := by
      rw [find?_append_left_none]
      · simp [he2, hrow]
      · intro x hx
        have := (hfresh x hx).1
        simp [he2, this]
    have hfalse : (jsBodyFalsy (some e2) || jsBodyFalsy (some i.password_hash)) = false := by
      simp [jsBodyFalsy, he2ne, hpwne]
    unfold login
    dsimp only
    rw [if_neg (by simp [hfalse])]
    simp only [Option.getD_some]
    rw [hfind]
    simp [hrow, jwtSign]
  · intro j hj
    rw [hreg]
    have hrowpred : (row.email == normEmail j.email
        || row.username == jsTrim j.username) = true := by
      simp [hrow, hj]
    simp [register, hrowpred]

def aliceInput : CreateUserInput :=
  { username := "Alice "
    email := " Alice@X.com"
    password_hash := "longpass1"
    full_name := none
    profile_image_url := none }

/-- Witness for the email-normalisation theorem on the seed state. -/
theorem register_login_email_normalised_witness :
    ∃ u tok, (register seedDb "secret" "t" "img" aliceInput).1 = .created u tok ∧
      u.email = normEmail aliceInput.email ∧
      (∀ e2, normEmail e2 = normEmail aliceInput.email →
        login (register seedDb "secret" "t" "img" aliceInput).2 "secret" (some e2)
            (some aliceInput.password_hash)
          = .success u (jwtSign { user_id := u.id, email := u.email } "secret")) ∧
      (∀ j : CreateUserInput, normEmail j.email = normEmail aliceInput.email →
        (register (register seedDb "secret" "t" "img" aliceInput).2
            "secret" "t" "img" j).1 = .alreadyExists) :=
  register_login_email_normalised seedDb "secret" "t" "img" aliceInput
    (by decide) (by decide) (by decide)

/-! ## Server: POST /api/likes -/

/-- Like-creation body after `createLikeInputSchema.parse`; the string
ids are modelled after the integer cast Postgres applies. -/
structure CreateLikeInput where
  user_id : Nat
  post_id : Nat
deriving Repr, DecidableEq

inductive CreateLikeResult where
  | userNotFound
  | postNotFound
  | alreadyExists
  | created (like : LikeRow)
deriving Repr, DecidableEq

def CreateLikeResult.status : CreateLikeResult → Nat
  | .created _ => 201
  | _ => 400

def CreateLikeResult.errorCode : CreateLikeResult → Option String
  | .userNotFound => some "USER_NOT_FOUND"
  | .postNotFound => some "POST_NOT_FOUND"
  | .alreadyExists => some "LIKE_ALREADY_EXISTS"
  | .created _ => none

/-- `POST /api/likes`: verify that user and post exist, reject an
existing (user, post) like with 400 `LIKE_ALREADY_EXISTS` before the
insert, otherwise insert the row. -/
def createLike (db : Db) (now : String) (i : CreateLikeInput) :
    CreateLikeResult × Db :=
  if (db.users.filter fun u => u.id == i.user_id).length = 0 then
    (.userNotFound, db)
  else if (db.posts.filter fun p => p.id == i.post_id).length = 0 then
    (.postNotFound, db)
  else if 0 < (db.likes.filter fun l =>
      l.user_id == i.user_id && l.post_id == i.post_id).length then
    (.alreadyExists, db)
  else
    let row : LikeRow := { user_id := i.user_id, post_id := i.post_id, created_at := now }
    (.created row, { db with likes := db.likes ++ [row] })

/-- C5: when exactly one like row for the (user, post) pair exists, a
second `POST /api/likes` for the same pair returns 400 with
`LIKE_ALREADY_EXISTS`, leaves the database unchanged, and exactly one
row for the pair remains afterwards. -/
theorem createLike_duplicate_rejected (db : Db) (now : String) (i : CreateLikeInput)
    (huser : ∃ u ∈ db.users, u.id = i.user_id)
    (hpost : ∃ p ∈ db.posts, p.id = i.post_id)
    (hone : (db.likes.countP fun l =>
        l.user_id == i.user_id && l.post_id == i.post_id) = 1) :
    (createLike db now i).1.status = 400 ∧
    (createLike db now i).1.errorCode = some "LIKE_ALREADY_EXISTS" ∧
    (createLike db now i).2 = db ∧
    ((createLike db now i).2.likes.countP fun l =>
        l.user_id == i.user_id && l.post_id == i.post_id) = 1 := by
  obtain ⟨u, hu, hui⟩ := huser
  obtain ⟨p, hp, hpi⟩ := hpost
  have hulen : ¬ (db.users.filter fun v => v.id == i.user_id).length = 0 := by
    have hm : u ∈ db.users.filter fun v => v.id == i.user_id :=
      List.mem_filter.mpr ⟨hu, by simp [hui]⟩
    have := List.length_pos_of_mem hm
    omega
  have hplen : ¬ (db.posts.filter fun q => q.id == i.post_id).length = 0 := by
    have hm : p ∈ db.posts.filter fun q => q.id == i.post_id :=
      List.mem_filter.mpr ⟨hp, by simp [hpi]⟩
    have := List.length_pos_of_mem hm
    omega
  have hllen : 0 < (db.likes.filter fun l =>
      l.user_id == i.user_id && l.post_id == i.post_id).length := by
    rw [← List.countP_eq_length_filter]
    omega
  have hres : createLike db now i = (.alreadyExists, db) := by
    simp [createLike, hulen, hplen, hllen]
  rw [hres]
  exact ⟨rfl, rfl, rfl, hone⟩

/-- Witness for the duplicate-like theorem on the seed state. -/
theorem createLike_duplicate_rejected_witness :
    (createLike seedDb "t" { user_id := 2, post_id := 1 }).1.status = 400 ∧
    (createLike seedDb "t" { user_id := 2, post_id := 1 }).1.errorCode
      = some "LIKE_ALREADY_EXISTS" ∧
    (createLike seedDb "t" { user_id := 2, post_id := 1 }).2 = seedDb ∧
    ((createLike seedDb "t" { user_id := 2, post_id := 1 }).2.likes.countP fun l =>
        l.user_id == 2 && l.post_id == 1) = 1 :=
  createLike_duplicate_rejected seedDb "t" { user_id := 2, post_id := 1 }
    ⟨janeRow, by decide, by decide⟩ ⟨firstPost, by decide, by decide⟩ (by decide)

/-! ## Server: dynamic UPDATE statements (PUT /api/users, PUT /api/posts)

The handlers assemble a SET clause from the fields present in the
validated body (`updateFields.push(...)` per present field) and run one
`UPDATE ... SET ... WHERE id = $n RETURNING ...`. -/

inductive UpdateUserResult where
  | notFound
  | noUpdateFields
  | updated (user : UserRow)
deriving Repr, DecidableEq

def UpdateUserResult.status : UpdateUserResult → Nat
  | .notFound => 404
  | .noUpdateFields => 400
  | .updated _ => 200

inductive DeleteUserResult where
  | notFound
  | deleted
  | fkViolation
deriving Repr, DecidableEq

def DeleteUserResult.status : DeleteUserResult → Nat
  | .notFound => 404
  | .deleted => 204
  | .fkViolation => 500

mutual
inductive JsValue where
  | str (s : String)
  | nullV
  | undef
  | obj (fields : JsFields)
  | arr (elems : JsArray)
inductive JsFields where
  | nil
  | cons (key : String) (value : JsValue) (rest : JsFields)
inductive JsArray where
  | nil
  | cons (value : JsValue) (rest : JsArray)
end

def JsValue.isUndef : JsValue → Bool
  | .undef => true
  | _ => false

mutual
/-- Does the serialised output contain a property named `k` at any
depth?  Properties with `undefined` values are dropped by
`JSON.stringify`, so they (and their subtrees) never appear. -/
def jsonHasKey (k : String) : JsValue → Bool
  | .obj fs => fieldsHaveKey k fs
  | .arr es => arrayHasKey k es
  | .str _ => false
  | .nullV => false
  | .undef => false
def fieldsHaveKey (k : String) : JsFields → Bool
  | .nil => false
  | .cons key v rest =>
    if v.isUndef then fieldsHaveKey k rest
    else key == k || jsonHasKey k v || fieldsHaveKey k rest
def arrayHasKey (k : String) : JsArray → Bool
  | .nil => false
  | .cons v rest => jsonHasKey k v || arrayHasKey k rest
end

def jsonOfOptStr : Option String → JsValue
  | some s => .str s
  | none => .nullV

/-- The user object literal each user-returning handler constructs
(register, login, list, get-by-id and update all build this same
shape): every public column, with `password_hash: undefined`. -/
def userResponseJson (u : UserRow) : JsValue :=
  .obj (.cons "id" (.str (toString u.id))
    (.cons "username" (.str u.username)
    (.cons "email" (.str u.email)
    (.cons "password_hash" .undef
    (.cons "full_name" (jsonOfOptStr u.full_name)
    (.cons "profile_image_url" (.str u.profile_image_url)
    (.cons "created_at" (.str u.created_at) .nil)))))))

/-- Body of the 201 register response: `{ user, auth_token }`. -/
def registerResponseJson (u : UserRow) (auth_token : String) : JsValue :=
  .obj (.cons "user" (userResponseJson u)
    (.cons "auth_token" (.str auth_token) .nil))

/-- Body of the 200 login response: `{ user, auth_token }`. -/
def loginResponseJson (u : UserRow) (auth_token : String) : JsValue :=
  .obj (.cons "user" (userResponseJson u)
    (.cons "auth_token" (.str auth_token) .nil))

def usersArrayJson : List UserRow → JsArray
  | [] => .nil
  | u :: rest => .cons (userResponseJson u) (usersArrayJson rest)

/-- Body of the `GET /api/users` response: the mapped row array. -/
def listUsersResponseJson (rows : List UserRow) : JsValue :=
  .arr (usersArrayJson rows)

/-- Body of the `GET /api/users/:user_id` response. -/
def getUserResponseJson (u : UserRow) : JsValue :=
  userResponseJson u

/-- Body of the `PUT /api/users/:user_id` response. -/
def updateUserResponseJson (u : UserRow) : JsValue :=
  userResponseJson u

theorem userResponseJson_not_undef (u : UserRow) :
    (userResponseJson u).isUndef = false := rfl

theorem fieldsHaveKey_cons_not_undef (k key : String) (v : JsValue) (rest : JsFields)
    (h : v.isUndef = false) :
    fieldsHaveKey k (.cons key v rest)
      = (key == k || jsonHasKey k v || fieldsHaveKey k rest) := by
  simp [fieldsHaveKey, h]

theorem userResponseJson_no_password (u : UserRow) :
    jsonHasKey "password_hash" (userResponseJson u) = false := by
  obtain ⟨a1, a2, a3, a4, a5, a6, a7⟩ := u
  cases a5 <;>
    simp [userResponseJson, jsonHasKey, fieldsHaveKey, JsValue.isUndef, jsonOfOptStr]

/-- C3: no user-returning handler response contains a password field:
the serialised bodies of the register, login, user-list, get-user and
update-user responses never contain a property named
`password_hash` (the literal carries `password_hash: undefined`, which
`JSON.stringify` drops). -/
theorem no_password_in_responses :
    (∀ (u : UserRow) (tok : String),
      jsonHasKey "password_hash" (registerResponseJson u tok) = false) ∧
    (∀ (u : UserRow) (tok : String),
      jsonHasKey "password_hash" (loginResponseJson u tok) = false) ∧
    (∀ rows : List UserRow,
      jsonHasKey "password_hash" (listUsersResponseJson rows) = false) ∧
    (∀ u : UserRow,
      jsonHasKey "password_hash" (getUserResponseJson u) = false) ∧
    (∀ u : UserRow,
      jsonHasKey "password_hash" (updateUserResponseJson u) = false) := by
  have harr : ∀ rows : List UserRow,
      arrayHasKey "password_hash" (usersArrayJson rows) = false := by
    intro rows
    induction rows with
    | nil => rfl
    | cons u rest ih =>
      simp [usersArrayJson, arrayHasKey, ih, userResponseJson_no_password u]
  refine ⟨?_, ?_, ?_, ?_, ?_⟩
  · intro u tok
    simp only [registerResponseJson, jsonHasKey]
    rw [fieldsHaveKey_cons_not_undef _ _ _ _ (userResponseJson_not_undef u),
      userResponseJson_no_password u]
    simp [fieldsHaveKey, jsonHasKey, JsValue.isUndef]
  · intro u tok
    simp only [loginResponseJson, jsonHasKey]
    rw [fieldsHaveKey_cons_not_undef _ _ _ _ (userResponseJson_not_undef u),
      userResponseJson_no_password u]
    simp [fieldsHaveKey, jsonHasKey, JsValue.isUndef]
  · intro rows
    simp [listUsersResponseJson, jsonHasKey, harr rows]
  · intro u
    simp [getUserResponseJson, userResponseJson_no_password u]
  · intro u
    simp [updateUserResponseJson, userResponseJson_no_password u]

/-! ## Server: the route table -/

/-- One segment of an Express route path. -/
inductive RouteSeg where
  | lit (s : String)
  | par (name : String)
deriving Repr, DecidableEq

/-- An Express route pattern: a literal path with `:params`, or the
regex catch-all `^(?!\/api).*` serving the SPA for non-API paths. -/
inductive RoutePattern where
  | segs (l : List RouteSeg)
  | nonApiCatchAll
deriving Repr, DecidableEq

/-- Split a path on `/` characters. -/
def splitSlashAux : List Char → List Char → List String
  | [], acc => [⟨acc.reverse⟩]
  | c :: rest, acc =>
    if c = '/' then (⟨acc.reverse⟩ : String) :: splitSlashAux rest []
    else splitSlashAux rest (c :: acc)

/-- Segments of a request path (leading `/` discarded). -/
def splitPath (p : String) : List String :=
  (splitSlashAux p.data []).drop 1

def pathStartsWithApi (p : String) : Bool :=
  List.isPrefixOf "/api".data p.data

/-- A `:param` segment matches any non-empty path segment. -/
def segMatches : RouteSeg → String → Bool
  | .lit s, x => s == x
  | .par _, x => !(x == "")

def matchSegs : List RouteSeg → List String → Bool
  | [], [] => true
  | s :: rest, x :: xs => segMatches s x && matchSegs rest xs
  | _, _ => false

def routeMatches : RoutePattern → String → Bool
  | .segs l, p => matchSegs l (splitPath p)
  | .nonApiCatchAll, p => !(pathStartsWithApi p)

/-- Every route the server registers, in source order. -/
def serverRoutes : List (String × RoutePattern) :=
  [("POST", .segs [.lit "api", .lit "auth", .lit "register"]),
   ("POST", .segs [.lit "api", .lit "auth", .lit "login"]),
   ("GET", .segs [.lit "api", .lit "users"]),
   ("POST", .segs [.lit "api", .lit "users"]),
   ("GET", .segs [.lit "api", .lit "users", .par "user_id"]),
   ("PUT", .segs [.lit "api", .lit "users", .par "user_id"]),
   ("DELETE", .segs [.lit "api", .lit "users", .par "user_id"]),
   ("GET", .segs [.lit "api", .lit "posts"]),
   ("POST", .segs [.lit "api", .lit "posts"]),
   ("GET", .segs [.lit "api", .lit "posts", .par "post_id"]),
   ("PUT", .segs [.lit "api", .lit "posts", .par "post_id"]),
   ("DELETE", .segs [.lit "api", .lit "posts", .par "post_id"]),
   ("GET", .segs [.lit "api", .lit "comments"]),
   ("POST", .segs [.lit "api", .lit "comments"]),
   ("GET", .segs [.lit "api", .lit "comments", .par "comment_id"]),
   ("PUT", .segs [.lit "api", .lit "comments", .par "comment_id"]),
   ("DELETE", .segs [.lit "api", .lit "comments", .par "comment_id"]),
   ("GET", .segs [.lit "api", .lit "likes"]),
   ("POST", .segs [.lit "api", .lit "likes"]),
   ("DELETE", .segs [.lit "api", .lit "likes", .par "user_id", .par "post_id"]),
   ("GET", .segs [.lit "api", .lit "health"]),
   ("GET", .nonApiCatchAll)]

/-- The first registered route matching a request; `none` means Express
falls through to its default 404 response. -/
def dispatch (method p : String) : Option (String × RoutePattern) :=
  serverRoutes.find? fun r => r.1 == method && routeMatches r.2 p

def emptyDb : Db :=
  { users := [], posts := [], likes := [], comments := [], nextUserId := 1 }

def c2Input : CreateUserInput :=
  { username := "alice", email := "a@x.com", password_hash := "longpass1"
    full_name := none, profile_image_url := none }

def c2User : UserRow :=
  { id := 1, username := "alice", email := "a@x.com"
    password_hash := "longpass1", full_name := none
    profile_image_url := "img", created_at := "t0" }

def c2Token : JwtToken := jwtSign { user_id := 1, email := "a@x.com" } "secret"

/-- C2 fails on the code: registration itself succeeds and returns a
token that the `authenticateToken` middleware accepts for the new user
id, but the server registers no `GET /api/auth/verify` route (and the
SPA catch-all excludes `/api` paths), so the verification request that
`checkAuth` sends with the fresh token matches no route: Express
answers 404 and no user can be returned. -/
theorem register_verify_endpoint_missing :
    (register emptyDb "secret" "t0" "img" c2Input).1 = .created c2User c2Token ∧
    authenticateToken (register emptyDb "secret" "t0" "img" c2Input).2 "secret"
        (some c2Token) = .ok c2User ∧
    c2Token.payload.user_id = c2User.id ∧
    dispatch "GET" "/api/auth/verify" = none :=
  ⟨by decide, by decide, rfl, by decide⟩

/-! ## Server: GET /api/users (search, sort, pagination) -/

/-- `req.query` for `GET /api/users`: every present value is a string
(Express parses query strings into string values). -/
structure UsersQuery where
  query : Option String
  limit : Option String
  offset : Option String
  sort_by : Option String
  sort_order : Option String
deriving Repr, DecidableEq

/-- The output type of `searchUserInputSchema.parse`. -/
structure SearchUserParams where
  query : Option String
  limit : Nat
  offset : Nat
  sort_by : String
  sort_order : String
deriving Repr, DecidableEq

/-- `z.enum([...]).default(dflt)` on an optional query value. -/
def parseEnum (allowed : List String) (dflt : String) :
    Option String → Except Unit String
  | none => .ok dflt
  | some s => if s ∈ allowed then .ok s else .error ()

/-- `searchUserInputSchema.parse(req.query)`: `limit` and `offset` are
declared `z.number().int()...` WITHOUT coercion, so a present value —
always a string in `req.query` — fails parsing with a ZodError, while
an absent one takes the default (10 and 0); `query` is an optional
string and the sort fields are string enums with defaults. -/
def parseSearchUserInput (q : UsersQuery) : Except Unit SearchUserParams := do
  let lim : Nat ← match q.limit with
    | none => pure 10
    | some _ => Except.error ()
  let off : Nat ← match q.offset with
    | none => pure 0
    | some _ => Except.error ()
  let sb ← parseEnum ["username", "email", "full_name", "created_at"]
    "created_at" q.sort_by
  let so ← parseEnum ["asc", "desc"] "desc" q.sort_order
  pure { query := q.query, limit := lim, offset := off, sort_by := sb, sort_order := so }

def charsStartWith : List Char → List Char → Bool
  | [], _ => true
  | _ :: _, [] => false
  | p :: ps, c :: cs => p == c && charsStartWith ps cs

def charsContain (pat : List Char) : List Char → Bool
  | [] => pat.isEmpty
  | c :: cs => charsStartWith pat (c :: cs) || charsContain pat cs

/-- `col ILIKE concat of percent, pat, percent`: case-insensitive substring. -/
def ilike (pat s : String) : Bool :=
  charsContain (jsToLower pat).data (jsToLower s).data

/-- The WHERE clause of the user search: any of the three columns
matches (a NULL `full_name` matches nothing). -/
def userMatchesQuery (q : String) (u : UserRow) : Bool :=
  ilike q u.username || ilike q u.email ||
    (match u.full_name with
      | some f => ilike q f
      | none => false)

/-- The column `ORDER BY` sorts on. -/
def userSortKey (col : String) (u : UserRow) : String :=
  if col = "username" then u.username
  else if col = "email" then u.email
  else if col = "full_name" then u.full_name.getD ""
  else u.created_at

/-- `ORDER BY sort_by sort_order` (string comparison; a NULL
`full_name` sorts like the empty string in this model). -/
def sortUsersRows (sort_by sort_order : String) (rows : List UserRow) : List UserRow :=
  rows.mergeSort fun a b =>
    if sort_order = "asc" then decide (userSortKey sort_by a ≤ userSortKey sort_by b)
    else decide (userSortKey sort_by b ≤ userSortKey sort_by a)

/-- `GET /api/users`: validate the query parameters, filter when a
non-blank search string is given, sort, then `LIMIT limit OFFSET
offset`. -/
def getUsers (db : Db) (q : UsersQuery) : Except Unit (List UserRow) := do
  let p ← parseSearchUserInput q
  let base := match p.query with
    | some s => if jsTrim s = "" then db.users
        else db.users.filter (userMatchesQuery (jsTrim s))
    | none => db.users
  let sorted := sortUsersRows p.sort_by p.sort_order base
  pure ((sorted.drop p.offset).take p.limit)

/-- Status and error code of the `GET /api/users` response: a ZodError
is caught and answered with 400 `VALIDATION_ERROR`. -/
def getUsersResponse (db : Db) (q : UsersQuery) : Nat × Option String :=
  match getUsers db q with
  | .error _ => (400, some "VALIDATION_ERROR")
  | .ok _ => (200, none)

/-- C7 fails on the code: supplying `limit=5&offset=0` — positive
integer and non-negative integer, arriving as query strings — is
rejected with 400 `VALIDATION_ERROR` for every database state, because
the schema lacks number coercion; only when both parameters are omitted
does the handler run, with the defaults 10 and 0, returning at most 10
rows. -/
theorem getUsers_rejects_pagination_params :
    (∀ db : Db, getUsersResponse db
        { query := none, limit := some "5", offset := some "0"
          sort_by := none, sort_order := none } = (400, some "VALIDATION_ERROR")) ∧
    (∀ db : Db, getUsers db
        { query := none, limit := none, offset := none
          sort_by := none, sort_order := none }
      = .ok (((sortUsersRows "created_at" "desc" db.users).drop 0).take 10)) ∧
    (∀ db : Db, (((sortUsersRows "created_at" "desc" db.users).drop 0).take 10).length
      ≤ 10) := by
  refine ⟨fun db => rfl, fun db => rfl, fun db => ?_⟩
  simp [List.length_take]

end Eco3
